import Mathlib

/-!
Verification of the `subscribers` web application (`app.py`,
`logging_config.py`).

The embedding models the `subscribers` table as a list of rows in insertion
order, the `POST /subscribe` handler as a function from the table, the raw
submitted email, the insertion timestamp, the auto-increment id and a
persistence-failure flag to a result record (new table, flashed messages,
HTTP status, response body, structured log events), the `GET /subscribers`
and `GET /health` handlers as pure functions, and the JSON file logger setup
as a function on the `logging` module registry.
-/

namespace App

/-- Model of Python `str.strip()`: remove whitespace from both ends. -/
def pyStrip (s : String) : String :=
  ⟨((s.data.dropWhile Char.isWhitespace).reverse.dropWhile Char.isWhitespace).reverse⟩

/-- Model of Python `str.lower()`: lower-case every character. -/
def pyLower (s : String) : String :=
  ⟨s.data.map Char.toLower⟩

/-- `email = form.email.data.strip().lower()` (app.py line 145). -/
def normalizeEmail (s : String) : String :=
  pyLower (pyStrip s)

/-- Split a character list at every occurrence of `sep` (the pieces never
contain `sep`; `n` separators yield `n + 1` pieces). -/
def splitOnChar (sep : Char) : List Char → List (List Char)
  | [] => [[]]
  | c :: cs =>
    let rest := splitOnChar sep cs
    if c == sep then [] :: rest
    else
      match rest with
      | [] => [[c]]
      | h :: t => (c :: h) :: t

/-- Modelled from the spec: the form validation performed by the WTForms
`DataRequired()` and `Email()` validators (library code, not part of this
repository).  Rejects the empty string, input without exactly one `@`, an
empty local part, and a missing or period-less domain. -/
def isValidEmail (s : String) : Bool :=
  match splitOnChar '@' s.data with
  | [localPart, domain] =>
    !localPart.isEmpty && !domain.isEmpty && domain.contains '.' &&
      domain.head? != some '.' && domain.getLast? != some '.'
  | _ => false

/-- One row of the `subscribers` table (the `Subscriber` model,
app.py lines 60-73): `id`, `email`, `created_at`. -/
structure Row where
  id : Nat
  email : String
  createdAt : Nat
deriving DecidableEq

/-- The `subscribers` table: rows in insertion order. -/
abbrev DB := List Row

/-- The body a handler responds with: a Flask `redirect` or a
`render_template`. -/
inductive Page where
  | redirectTo (location : String)
  | render (template : String)
deriving DecidableEq

/-- Outcome of one `POST /subscribe` request: resulting table, flashed
`(message, category)` pairs, HTTP status code, response body, and the
structured log events emitted by the handler. -/
structure SubscribeResult where
  db : DB
  flashes : List (String × String)
  status : Nat
  page : Page
  logs : List String
deriving DecidableEq

/-- The `POST /subscribe` handler (app.py lines 122-209).  `raw` is the
submitted `email` field, `now` the timestamp `datetime.utcnow` would assign,
`nextId` the auto-increment id the database would assign, and `insertFails`
whether the insert/commit raises a persistence error. -/
def subscribe (db : DB) (raw : String) (now nextId : Nat) (insertFails : Bool) :
    SubscribeResult :=
  if !isValidEmail raw then
    { db := db
      flashes := [("Invalid email address. Please try again.", "error")]
      status := 400
      page := .render "index.html"
      logs := ["subscribe_rejected"] }
  else
    let email := normalizeEmail raw
    match db.find? (fun r => r.email == email) with
    | some _ =>
      { db := db
        flashes := [("This email is already subscribed.", "info")]
        status := 302
        page := .redirectTo "/"
        logs := ["subscribe_attempt", "subscribe_duplicate"] }
    | none =>
      if insertFails then
        { db := db
          flashes := [("Something went wrong saving your subscription.", "error")]
          status := 500
          page := .render "index.html"
          logs := ["subscribe_attempt", "subscribe_db_error"] }
      else
        { db := db ++ [{ id := nextId, email := email, createdAt := now }]
          flashes := [("Subscription successful! Thank you.", "success")]
          status := 302
          page := .redirectTo "/"
          logs := ["subscribe_attempt", "subscribe_success"] }

/-- The `GET /subscribers` handler (app.py lines 212-218): all rows ordered
by `created_at` descending. -/
def list_subscribers (db : DB) : List Row :=
  db.mergeSort (fun a b => decide (b.createdAt ≤ a.createdAt))

/-- Outcome of one `GET /health` request. -/
structure HealthResult where
  payloadStatus : String
  status : Nat
  db : DB
  logs : List String
deriving DecidableEq

/-- The `GET /health` handler (app.py lines 220-227): fixed `ok` payload,
status 200, one `health_check` log event, and it never touches the table. -/
def health (db : DB) : HealthResult :=
  { payloadStatus := "ok", status := 200, db := db, logs := ["health_check"] }

/-- State of one Python logger as far as `setup_json_file_logger` observes
it: level, number of attached handlers, propagation flag. -/
structure PyLogger where
  level : Nat
  handlers : Nat
  propagate : Bool
deriving DecidableEq

/-- The `logging` module registry: named loggers, identified by name. -/
abbrev LogRegistry := List (String × PyLogger)

/-- `logging.getLogger(name)`: return the registered logger, creating it
(level WARNING = 30, no handlers, propagating) on first use. -/
def getLogger (reg : LogRegistry) (name : String) : PyLogger × LogRegistry :=
  match reg.find? (fun p => p.1 == name) with
  | some p => (p.2, reg)
  | none => (⟨30, 0, true⟩, reg ++ [(name, ⟨30, 0, true⟩)])

/-- Overwrite the registered logger `name` with `l` (mutation of the shared
logger object). -/
def setLogger (reg : LogRegistry) (name : String) (l : PyLogger) : LogRegistry :=
  reg.map (fun p => if p.1 == name then (name, l) else p)

/-- `setup_json_file_logger` (logging_config.py lines 29-50): set the level
to INFO (20); if the logger already has handlers, return it unchanged,
otherwise attach one file handler and stop propagation. -/
def setup_json_file_logger (reg : LogRegistry) (appName : String) :
    PyLogger × LogRegistry :=
  let t := getLogger reg appName
  let l1 : PyLogger := { t.1 with level := 20 }
  if l1.handlers ≠ 0 then (l1, setLogger t.2 appName l1)
  else
    let l2 : PyLogger := { l1 with handlers := l1.handlers + 1, propagate := false }
    (l2, setLogger t.2 appName l2)

/-- Table states reachable through the subscribe flow from the empty table
created by `init_db`; the application exposes no update or delete. -/
inductive Reachable : DB → Prop where
  | empty : Reachable []
  | step (db : DB) (raw : String) (now nextId : Nat) (insertFails : Bool) :
      Reachable db → Reachable (subscribe db raw now nextId insertFails).db

/-- Every stored email is already lower-cased. -/
def LowerCased (db : DB) : Prop := ∀ r ∈ db, pyLower r.email = r.email

/-- No two rows share an email under case-insensitive comparison. -/
def CaseInsensitiveDistinct (db : DB) : Prop :=
  db.Pairwise (fun a b => pyLower a.email ≠ pyLower b.email)

/-- The inductive invariant maintained by the subscribe flow: all stored
emails are lower-cased and pairwise distinct under exact comparison. -/
def Inv (db : DB) : Prop :=
  LowerCased db ∧ db.Pairwise (fun a b => a.email ≠ b.email)

/-- A `Char` packed from a valid codepoint unpacks to the same codepoint. -/
theorem char_toNat_ofNat {n : Nat} (h : n.isValidChar) : (Char.ofNat n).toNat = n := by
  simp [Char.ofNat, dif_pos h, Char.ofNatAux, Char.toNat, UInt32.toNat, BitVec.toNat_ofNatLt]

/-- `Char.toLower` is idempotent: lowering moves the basic latin capitals
65-90 to 97-122, outside the capital range. -/
theorem char_toLower_idem (c : Char) : c.toLower.toLower = c.toLower := by
  simp only [Char.toLower]
  by_cases h : c.toNat ≥ 65 ∧ c.toNat ≤ 90
  · rw [if_pos h]
    have hv : Nat.isValidChar (c.toNat + 32) := Or.inl (by omega)
    have ht : (Char.ofNat (c.toNat + 32)).toNat = c.toNat + 32 := char_toNat_ofNat hv
    have h2 : ¬((Char.ofNat (c.toNat + 32)).toNat ≥ 65 ∧
        (Char.ofNat (c.toNat + 32)).toNat ≤ 90) := by
      rw [ht]; omega
    rw [if_neg h2]
  · rw [if_neg h, if_neg h]

/-- Lower-casing a string twice is the same as lower-casing it once. -/
theorem pyLower_idem (s : String) : pyLower (pyLower s) = pyLower s := by
  simp [pyLower, List.map_map, Function.comp_def, char_toLower_idem]

/-- A normalized email is already lower-cased. -/
theorem normalizeEmail_pyLower (s : String) :
    pyLower (normalizeEmail s) = normalizeEmail s := by
  simp [normalizeEmail, pyLower_idem]

/-- C1: for every valid, well-formed email not already stored, one POST to
`/subscribe` appends exactly one new row carrying the (normalized) submitted
email, flashes the success message, and responds with a 302 redirect to `/`. -/
theorem subscribe_new_email_inserts_one (db : DB) (raw : String) (now nextId : Nat)
    (hval : isValidEmail raw = true)
    (hnew : db.find? (fun r => r.email == normalizeEmail raw) = none) :
    (subscribe db raw now nextId false).db =
      db ++ [{ id := nextId, email := normalizeEmail raw, createdAt := now }] ∧
    (subscribe db raw now nextId false).db.length = db.length + 1 ∧
    (subscribe db raw now nextId false).flashes =
      [("Subscription successful! Thank you.", "success")] ∧
    (subscribe db raw now nextId false).status = 302 ∧
    (subscribe db raw now nextId false).page = .redirectTo "/" := by
  simp [subscribe, hval, hnew]

/-- Witness for C1 at the fresh email `user@example.com` on the empty table. -/
theorem subscribe_new_email_inserts_one_witness :
    isValidEmail "user@example.com" = true ∧
    ([] : DB).find? (fun r => r.email == normalizeEmail "user@example.com") = none ∧
    ((subscribe [] "user@example.com" 3 1 false).db =
      [] ++ [{ id := 1, email := normalizeEmail "user@example.com", createdAt := 3 }] ∧
    (subscribe [] "user@example.com" 3 1 false).db.length = ([] : DB).length + 1 ∧
    (subscribe [] "user@example.com" 3 1 false).flashes =
      [("Subscription successful! Thank you.", "success")] ∧
    (subscribe [] "user@example.com" 3 1 false).status = 302 ∧
    (subscribe [] "user@example.com" 3 1 false).page = .redirectTo "/") :=
  ⟨by decide, by decide,
    subscribe_new_email_inserts_one [] "user@example.com" 3 1 (by decide) (by decide)⟩

/-- C2: resubmitting an email already stored (the lookup is done on the
normalized input, so the match is case-insensitive) inserts no row, leaves the
table unchanged, flashes the duplicate message, and redirects to `/`. -/
theorem subscribe_duplicate_no_row (db : DB) (raw : String) (now nextId : Nat)
    (insertFails : Bool) (hval : isValidEmail raw = true)
    (hdup : (db.find? (fun r => r.email == normalizeEmail raw)).isSome = true) :
    (subscribe db raw now nextId insertFails).db = db ∧
    (subscribe db raw now nextId insertFails).flashes =
      [("This email is already subscribed.", "info")] ∧
    (subscribe db raw now nextId insertFails).status = 302 ∧
    (subscribe db raw now nextId insertFails).page = .redirectTo "/" := by
  obtain ⟨r, hr⟩ := Option.isSome_iff_exists.mp hdup
  simp [subscribe, hval, hr]

/-- Witness for C2: `USER@Example.com` resubmitted over a stored
`user@example.com` row. -/
theorem subscribe_duplicate_no_row_witness :
    isValidEmail "USER@Example.com" = true ∧
    (([{ id := 1, email := "user@example.com", createdAt := 1 }] : DB).find?
      (fun r => r.email == normalizeEmail "USER@Example.com")).isSome = true ∧
    ((subscribe [{ id := 1, email := "user@example.com", createdAt := 1 }]
        "USER@Example.com" 2 2 false).db =
      [{ id := 1, email := "user@example.com", createdAt := 1 }] ∧
    (subscribe [{ id := 1, email := "user@example.com", createdAt := 1 }]
        "USER@Example.com" 2 2 false).flashes =
      [("This email is already subscribed.", "info")] ∧
    (subscribe [{ id := 1, email := "user@example.com", createdAt := 1 }]
        "USER@Example.com" 2 2 false).status = 302 ∧
    (subscribe [{ id := 1, email := "user@example.com", createdAt := 1 }]
        "USER@Example.com" 2 2 false).page = .redirectTo "/") :=
  ⟨by decide, by decide,
    subscribe_duplicate_no_row [{ id := 1, email := "user@example.com", createdAt := 1 }]
      "USER@Example.com" 2 2 false (by decide) (by decide)⟩

/-- C3: every input failing the email-format validation is rejected with
HTTP 400, the form re-rendered with the inline error flash, and no row is
created. -/
theorem subscribe_invalid_rejected (db : DB) (raw : String) (now nextId : Nat)
    (insertFails : Bool) (hinv : isValidEmail raw = false) :
    (subscribe db raw now nextId insertFails).db = db ∧
    (subscribe db raw now nextId insertFails).status = 400 ∧
    (subscribe db raw now nextId insertFails).page = .render "index.html" ∧
    (subscribe db raw now nextId insertFails).flashes =
      [("Invalid email address. Please try again.", "error")] := by
  simp [subscribe, hinv]

/-- Witness for C3 at the three failure shapes the claim lists: empty string,
missing `@`, missing domain. -/
theorem subscribe_invalid_rejected_witness :
    (isValidEmail "" = false ∧
      (subscribe [] "" 0 1 false).db = [] ∧
      (subscribe [] "" 0 1 false).status = 400 ∧
      (subscribe [] "" 0 1 false).page = .render "index.html" ∧
      (subscribe [] "" 0 1 false).flashes =
        [("Invalid email address. Please try again.", "error")]) ∧
    (isValidEmail "no-at-sign" = false ∧
      (subscribe [] "no-at-sign" 0 1 false).db = [] ∧
      (subscribe [] "no-at-sign" 0 1 false).status = 400 ∧
      (subscribe [] "no-at-sign" 0 1 false).page = .render "index.html" ∧
      (subscribe [] "no-at-sign" 0 1 false).flashes =
        [("Invalid email address. Please try again.", "error")]) ∧
    (isValidEmail "user@" = false ∧
      (subscribe [] "user@" 0 1 false).db = [] ∧
      (subscribe [] "user@" 0 1 false).status = 400 ∧
      (subscribe [] "user@" 0 1 false).page = .render "index.html" ∧
      (subscribe [] "user@" 0 1 false).flashes =
        [("Invalid email address. Please try again.", "error")]) :=
  ⟨⟨by decide, subscribe_invalid_rejected [] "" 0 1 false (by decide)⟩,
    ⟨by decide, subscribe_invalid_rejected [] "no-at-sign" 0 1 false (by decide)⟩,
    ⟨by decide, subscribe_invalid_rejected [] "user@" 0 1 false (by decide)⟩⟩

/-- C4: a persistence failure during the insert leaves the table unchanged
(rollback), flashes the generic failure message, logs the structured
`subscribe_db_error` event, and responds with HTTP 500 instead of crashing. -/
theorem subscribe_db_failure_rolls_back (db : DB) (raw : String) (now nextId : Nat)
    (hval : isValidEmail raw = true)
    (hnew : db.find? (fun r => r.email == normalizeEmail raw) = none) :
    (subscribe db raw now nextId true).db = db ∧
    (subscribe db raw now nextId true).status = 500 ∧
    (subscribe db raw now nextId true).flashes =
      [("Something went wrong saving your subscription.", "error")] ∧
    (subscribe db raw now nextId true).page = .render "index.html" ∧
    "subscribe_db_error" ∈ (subscribe db raw now nextId true).logs := by
  simp [subscribe, hval, hnew]

/-- Witness for C4 at a failing insert of `a@b.com` on the empty table. -/
theorem subscribe_db_failure_rolls_back_witness :
    isValidEmail "a@b.com" = true ∧
    ([] : DB).find? (fun r => r.email == normalizeEmail "a@b.com") = none ∧
    ((subscribe [] "a@b.com" 0 1 true).db = [] ∧
      (subscribe [] "a@b.com" 0 1 true).status = 500 ∧
      (subscribe [] "a@b.com" 0 1 true).flashes =
        [("Something went wrong saving your subscription.", "error")] ∧
      (subscribe [] "a@b.com" 0 1 true).page = .render "index.html" ∧
      "subscribe_db_error" ∈ (subscribe [] "a@b.com" 0 1 true).logs) :=
  ⟨by decide, by decide,
    subscribe_db_failure_rolls_back [] "a@b.com" 0 1 (by decide) (by decide)⟩

/-- C6: the submitted email is normalized (whitespace trimmed, lower-cased)
before both the existence check and storage; `USER@Example.com` is stored as
`user@example.com`, and a following POST of `user@example.com` flashes the
duplicate message leaving the row count at 1. -/
theorem subscribe_normalization_scenario :
    normalizeEmail "USER@Example.com" = "user@example.com" ∧
    normalizeEmail "  user@EXAMPLE.com " = "user@example.com" ∧
    (subscribe [] "USER@Example.com" 1 1 false).db =
      [{ id := 1, email := "user@example.com", createdAt := 1 }] ∧
    (subscribe (subscribe [] "USER@Example.com" 1 1 false).db
        "user@example.com" 2 2 false).db =
      (subscribe [] "USER@Example.com" 1 1 false).db ∧
    (subscribe (subscribe [] "USER@Example.com" 1 1 false).db
        "user@example.com" 2 2 false).flashes =
      [("This email is already subscribed.", "info")] ∧
    (subscribe (subscribe [] "USER@Example.com" 1 1 false).db
        "user@example.com" 2 2 false).db.length = 1 := by
  decide

/-- C8: `GET /health` always answers 200 with the fixed `ok` payload,
neither reading nor modifying the subscribers table. -/
theorem health_fixed_ok (db otherDb : DB) :
    (health db).payloadStatus = "ok" ∧ (health db).status = 200 ∧
    (health db).db = db ∧
    (health db).payloadStatus = (health otherDb).payloadStatus ∧
    (health db).status = (health otherDb).status :=
  ⟨rfl, rfl, rfl, rfl, rfl⟩

/-- C10: `setup_json_file_logger` is idempotent: a second call for the same
application name returns the same logger with the same registry, and the
handler count stays at one. -/
theorem setup_json_file_logger_idempotent (appName : String) :
    (setup_json_file_logger (setup_json_file_logger [] appName).2 appName).1 =
      (setup_json_file_logger [] appName).1 ∧
    (setup_json_file_logger (setup_json_file_logger [] appName).2 appName).2 =
      (setup_json_file_logger [] appName).2 ∧
    (setup_json_file_logger [] appName).1.handlers = 1 ∧
    (setup_json_file_logger (setup_json_file_logger [] appName).2 appName).1.handlers = 1 := by
  simp [setup_json_file_logger, getLogger, setLogger]

/-- The subscribe handler either leaves the table unchanged or, when the
normalized email is absent and the insert succeeds, appends the one new row. -/
theorem subscribe_db_eq_or_append (db : DB) (raw : String) (now nextId : Nat)
    (insertFails : Bool) :
    (subscribe db raw now nextId insertFails).db = db ∨
    ((subscribe db raw now nextId insertFails).db =
        db ++ [{ id := nextId, email := normalizeEmail raw, createdAt := now }] ∧
      db.find? (fun r => r.email == normalizeEmail raw) = none) := by
  unfold subscribe
  by_cases hv : isValidEmail raw
  · simp only [hv, Bool.not_true, Bool.false_eq_true, if_false]
    cases hfind : db.find? (fun r => r.email == normalizeEmail raw) with
    | some r => simp [hfind]
    | none => by_cases hf : insertFails <;> simp [hfind, hf]
  · simp [hv]

/-- One subscribe step preserves the inductive invariant. -/
theorem inv_step (db : DB) (raw : String) (now nextId : Nat) (insertFails : Bool)
    (h : Inv db) : Inv (subscribe db raw now nextId insertFails).db := by
  rcases subscribe_db_eq_or_append db raw now nextId insertFails with heq | ⟨heq, hfind⟩
  · rw [heq]; exact h
  · rw [heq]
    constructor
    · intro r hr
      rcases List.mem_append.mp hr with hmem | hmem
      · exact h.1 r hmem
      · have hrq : r = { id := nextId, email := normalizeEmail raw, createdAt := now } :=
          List.mem_singleton.mp hmem
        rw [hrq]
        exact normalizeEmail_pyLower raw
    · rw [List.pairwise_append]
      refine ⟨h.2, List.pairwise_singleton _ _, ?_⟩
      intro a ha b hb
      have hb2 : b = { id := nextId, email := normalizeEmail raw, createdAt := now } :=
        List.mem_singleton.mp hb
      have hne := List.find?_eq_none.mp hfind a ha
      rw [hb2]
      simpa [beq_iff_eq] using hne

/-- Every reachable table state satisfies the inductive invariant. -/
theorem reachable_inv (db : DB) (h : Reachable db) : Inv db := by
  induction h with
  | empty => exact ⟨fun r hr => absurd hr (List.not_mem_nil r), List.Pairwise.nil⟩
  | step db raw now nextId insertFails _ ih => exact inv_step db raw now nextId insertFails ih

/-- The inductive invariant implies case-insensitive distinctness. -/
theorem inv_caseInsensitive {db : DB} (h : Inv db) : CaseInsensitiveDistinct db := by
  refine h.2.imp_of_mem ?_
  intro a b ha hb hne
  rw [h.1 a ha, h.1 b hb]
  exact hne

/-- The subscribe handler only ever appends: the old table is a prefix of the
new one (rows are never updated or deleted). -/
theorem subscribe_extends (db : DB) (raw : String) (now nextId : Nat)
    (insertFails : Bool) : db <+: (subscribe db raw now nextId insertFails).db := by
  rcases subscribe_db_eq_or_append db raw now nextId insertFails with heq | ⟨heq, _⟩
  · rw [heq]
  · rw [heq]; exact List.prefix_append db _

/-- A successful insert of a fresh valid email appends exactly the new row. -/
theorem subscribe_inserts (db : DB) (raw : String) (now nextId : Nat)
    (hval : isValidEmail raw = true)
    (hnew : db.find? (fun r => r.email == normalizeEmail raw) = none) :
    (subscribe db raw now nextId false).db =
      db ++ [{ id := nextId, email := normalizeEmail raw, createdAt := now }] := by
  simp [subscribe, hval, hnew]

/-- C5: on every table state reachable through the subscribe flow, no two
rows share an email under case-insensitive comparison; each subscribe step
preserves the invariant and only appends (never updates or deletes), and the
health endpoint leaves the table untouched. -/
theorem reachable_no_duplicate_emails (db : DB) (raw : String) (now nextId : Nat)
    (insertFails : Bool) (h : Reachable db) :
    CaseInsensitiveDistinct db ∧
    CaseInsensitiveDistinct (subscribe db raw now nextId insertFails).db ∧
    db <+: (subscribe db raw now nextId insertFails).db ∧
    (health db).db = db :=
  ⟨inv_caseInsensitive (reachable_inv db h),
    inv_caseInsensitive (reachable_inv _ (Reachable.step db raw now nextId insertFails h)),
    subscribe_extends db raw now nextId insertFails, rfl⟩

/-- Witness for C5 at the empty (reachable) table and one insertion step. -/
theorem reachable_no_duplicate_emails_witness :
    Reachable [] ∧
    (CaseInsensitiveDistinct [] ∧
      CaseInsensitiveDistinct (subscribe [] "a@b.com" 1 1 false).db ∧
      [] <+: (subscribe [] "a@b.com" 1 1 false).db ∧
      (health []).db = []) :=
  ⟨Reachable.empty, reachable_no_duplicate_emails [] "a@b.com" 1 1 false Reachable.empty⟩

/-- The listing is a permutation of the table. -/
theorem list_subscribers_perm (l : DB) : List.Perm (list_subscribers l) l :=
  List.mergeSort_perm l _

/-- The listing is sorted by `created_at` descending. -/
theorem list_subscribers_sorted (l : DB) :
    (list_subscribers l).Pairwise (fun a b => b.createdAt ≤ a.createdAt) := by
  have h := @List.sorted_mergeSort Row
    (fun a b : Row => decide (b.createdAt ≤ a.createdAt))
    (fun a b c hab hbc => by
      simp only [decide_eq_true_eq] at hab hbc ⊢; omega)
    (fun a b => by
      simp only [Bool.or_eq_true, decide_eq_true_eq]; omega) l
  exact h.imp (fun hab => by simpa using hab)

/-- A row strictly newer than all others is listed first. -/
theorem strict_max_head (db : DB) (newRow : Row)
    (hfresh : ∀ r ∈ db, r.createdAt < newRow.createdAt) :
    (list_subscribers (db ++ [newRow])).head? = some newRow := by
  have hp : List.Perm (list_subscribers (db ++ [newRow])) (db ++ [newRow]) :=
    list_subscribers_perm (db ++ [newRow])
  have hs := list_subscribers_sorted (db ++ [newRow])
  have hmem : newRow ∈ list_subscribers (db ++ [newRow]) :=
    hp.mem_iff.mpr (by simp)
  cases hle : list_subscribers (db ++ [newRow]) with
  | nil => rw [hle] at hmem; cases hmem
  | cons x xs =>
    rw [hle] at hmem hs hp
    rcases List.mem_cons.mp hmem with hx | hx
    · simp [hx]
    · have hxa : newRow.createdAt ≤ x.createdAt := List.rel_of_pairwise_cons hs hx
      have hxmem : x ∈ db ++ [newRow] := hp.mem_iff.mp (List.mem_cons_self x xs)
      rcases List.mem_append.mp hxmem with hxdb | hxnew
      · have := hfresh x hxdb; omega
      · have hxq : x = newRow := List.mem_singleton.mp hxnew
        simp [hxq]

/-- C7: `GET /subscribers` renders a permutation of the table ordered by
`created_at` descending, and a row just inserted at a timestamp newer than
all existing rows appears first on the next fetch. -/
theorem list_subscribers_newest_first (anyDb db : DB) (raw : String) (now nextId : Nat)
    (hfresh : ∀ r ∈ db, r.createdAt < now)
    (hval : isValidEmail raw = true)
    (hnew : db.find? (fun r => r.email == normalizeEmail raw) = none) :
    List.Perm (list_subscribers anyDb) anyDb ∧
    (list_subscribers anyDb).Pairwise (fun a b => b.createdAt ≤ a.createdAt) ∧
    (list_subscribers (subscribe db raw now nextId false).db).head? =
      some { id := nextId, email := normalizeEmail raw, createdAt := now } := by
  refine ⟨list_subscribers_perm anyDb, list_subscribers_sorted anyDb, ?_⟩
  rw [subscribe_inserts db raw now nextId hval hnew]
  exact strict_max_head db _ hfresh

/-- Witness for C7: a one-row table, then `c@d.com` inserted at a later
timestamp is listed first. -/
theorem list_subscribers_newest_first_witness :
    (∀ r ∈ ([{ id := 1, email := "a@b.com", createdAt := 1 }] : DB), r.createdAt < 2) ∧
    isValidEmail "c@d.com" = true ∧
    ([{ id := 1, email := "a@b.com", createdAt := 1 }] : DB).find?
      (fun r => r.email == normalizeEmail "c@d.com") = none ∧
    ((list_subscribers [{ id := 1, email := "a@b.com", createdAt := 1 }]).Perm
      [{ id := 1, email := "a@b.com", createdAt := 1 }] ∧
    (list_subscribers [{ id := 1, email := "a@b.com", createdAt := 1 }]).Pairwise
      (fun a b => b.createdAt ≤ a.createdAt) ∧
    (list_subscribers (subscribe [{ id := 1, email := "a@b.com", createdAt := 1 }]
        "c@d.com" 2 2 false).db).head? =
      some { id := 2, email := normalizeEmail "c@d.com", createdAt := 2 }) :=
  ⟨by decide, by decide, by decide,
    list_subscribers_newest_first [{ id := 1, email := "a@b.com", createdAt := 1 }]
      [{ id := 1, email := "a@b.com", createdAt := 1 }] "c@d.com" 2 2
      (by decide) (by decide) (by decide)⟩

/-- C9: every error outcome of the subscribe handler (validation rejection,
HTTP 400, or persistence failure, HTTP 500) emits its structured log event
before the response is returned. -/
theorem subscribe_errors_are_logged (db : DB) (raw : String) (now nextId : Nat)
    (insertFails : Bool)
    (h : (subscribe db raw now nextId insertFails).status = 400 ∨
      (subscribe db raw now nextId insertFails).status = 500) :
    ((subscribe db raw now nextId insertFails).status = 400 ∧
      "subscribe_rejected" ∈ (subscribe db raw now nextId insertFails).logs) ∨
    ((subscribe db raw now nextId insertFails).status = 500 ∧
      "subscribe_db_error" ∈ (subscribe db raw now nextId insertFails).logs) := by
  cases hv : isValidEmail raw with
  | false => left; simp [subscribe, hv]
  | true =>
    cases hfind : db.find? (fun r => r.email == normalizeEmail raw) with
    | some r =>
      exfalso
      rcases h with h | h <;> simp [subscribe, hv, hfind] at h
    | none =>
      cases hf : insertFails with
      | true => right; simp [subscribe, hv, hfind]
      | false =>
        exfalso
        rcases h with h | h <;> simp [subscribe, hv, hfind, hf] at h

/-- Witness for C9 at the rejected empty input. -/
theorem subscribe_errors_are_logged_witness :
    ((subscribe [] "" 0 1 false).status = 400 ∨
      (subscribe [] "" 0 1 false).status = 500) ∧
    (((subscribe [] "" 0 1 false).status = 400 ∧
        "subscribe_rejected" ∈ (subscribe [] "" 0 1 false).logs) ∨
      ((subscribe [] "" 0 1 false).status = 500 ∧
        "subscribe_db_error" ∈ (subscribe [] "" 0 1 false).logs)) :=
  ⟨Or.inl (by decide), subscribe_errors_are_logged [] "" 0 1 false (Or.inl (by decide))⟩

end App
